import Mathlib

/-!
# Verification of the quic-relay handler subsystem

Shallow embedding of the handler code of the `quic-relay` UDP reverse proxy:
the simple-router (`StaticHandler`), the sni-router (`DynamicHandler`), the
global rate limiter (`RateLimitGlobalHandler`) and the forwarder
(`ForwarderHandler`), together with the session close protocol and the
backend-to-client pump.  Stateful Go code is embedded as explicit state
passing; socket and scheduler effects are recorded as event traces; fallible
operations return `Except` or take outcome oracles as parameters.
-/

namespace QuicRelay

/-- Result action of a handler call: `Continue` passes to the next handler,
`Handled` terminates the chain successfully, `Drop` aborts the connection. -/
inductive Action where
  | Continue
  | Handled
  | Drop
deriving DecidableEq, Repr

/-- A handler result: an action plus an optional error (Go `error`, `none` = nil). -/
structure Result where
  action : Action
  error : Option String := none
deriving DecidableEq, Repr

/-- Packet direction through the chain. -/
inductive Direction where
  | Inbound
  | Outbound
deriving DecidableEq, Repr

/-- Parsed TLS ClientHello, as consumed by the routers. -/
structure ClientHello where
  sni : String
  alpn : List String := []
deriving DecidableEq, Repr

/-- Values stored in the context key-value bag (Go stores `any`; the handlers
only ever store strings and int64s). -/
inductive CtxVal where
  | str (s : String)
  | int (i : Int)
deriving DecidableEq, Repr

/-- A live client-to-backend session.  Only the fields the embedded handler
code touches are kept: numeric ID, client address, backend address, the atomic
closed flag, the last-activity timestamp and the creation timestamp. -/
structure Session where
  id : Nat
  clientAddr : String
  backendAddr : String
  closed : Bool
  lastActivity : Int
  createdAt : Int
deriving DecidableEq, Repr

/-- Modelled from the spec: the per-connection `Context` carried through the
handler chain (its Go definition is not among the provided files; fields and
accessor behaviour follow spec section 3 and the handler unit tests).  The
key-value bag is an association list, newest binding first. -/
structure Context where
  clientAddr : String := ""
  initialPacket : List Nat := []
  hello : Option ClientHello := none
  bag : List (String × CtxVal) := []
  session : Option Session := none
  hasProxyConn : Bool := true
deriving DecidableEq, Repr

/-- Modelled from the spec: `Context.Set` stores a value under a key
(later `Set` shadows earlier ones). -/
def Context.set (c : Context) (k : String) (v : CtxVal) : Context :=
  { c with bag := (k, v) :: c.bag }

/-- Modelled from the spec: `Context.GetString` returns the stored string for
a key, or the empty string when absent or not a string. -/
def Context.getString (c : Context) (k : String) : String :=
  match c.bag.lookup k with
  | some (.str s) => s
  | _ => ""

/-- Modelled from the spec: `Context.GetInt64` returns the stored int64 for a
key, or 0 when absent or not an int64. -/
def Context.getInt64 (c : Context) (k : String) : Int :=
  match c.bag.lookup k with
  | some (.int i) => i
  | _ => 0

theorem Context.getString_set (c : Context) (k : String) (s : String) :
    (c.set k (.str s)).getString k = s := by
  simp [Context.set, Context.getString, List.lookup]

theorem Context.session_set (c : Context) (k : String) (v : CtxVal) :
    (c.set k v).session = c.session := rfl

/-! ## simple-router (`StaticHandler`) -/

/-- Configuration of the simple-router after JSON decoding: `backend`
(single address, empty string when absent) and `backends` (address list,
empty when absent). -/
structure StaticConfig where
  backend : String := ""
  backends : List String := []
deriving DecidableEq, Repr

/-- The simple-router handler: a fixed backend list and a round-robin
counter (Go `atomic.Uint64`, starting at 0). -/
structure StaticHandler where
  backends : List String
  counter : Nat := 0
deriving DecidableEq, Repr

/-- `NewStaticHandler`: builds the backend list from the config, preferring
`backends`, then `backend`, then the environment variable
`QUIC_RELAY_BACKEND` (the environment is passed as a lookup function,
returning the empty string for unset variables, like Go `os.Getenv`). -/
def NewStaticHandler (cfg : StaticConfig) (env : String → String) :
    Except String StaticHandler :=
  if cfg.backends.length > 0 then
    .ok { backends := cfg.backends }
  else if cfg.backend ≠ "" then
    .ok { backends := [cfg.backend] }
  else if env "QUIC_RELAY_BACKEND" ≠ "" then
    .ok { backends := [env "QUIC_RELAY_BACKEND"] }
  else
    .error "simple-router requires backend, backends config or QUIC_RELAY_BACKEND env"

/-- Wrap-around bound of the Go `uint64` round-robin counters. -/
def UINT64_MOD : Nat := 2 ^ 64

/-- `StaticHandler.OnConnect`: takes the current counter value as the
round-robin index, stores the selected backend in the context, and
increments the counter (wrapping as a uint64). -/
def StaticHandler.OnConnect (h : StaticHandler) (ctx : Context) :
    StaticHandler × Context × Result :=
  let idx := h.counter
  let backend := h.backends.getD (idx % h.backends.length) ""
  ({ h with counter := (h.counter + 1) % UINT64_MOD },
   ctx.set "backend" (.str backend),
   { action := .Continue })

/-! ## sni-router (`DynamicHandler`) -/

/-- A route of the sni-router: the backend list for one SNI plus its own
round-robin counter (Go `atomic.Uint64`, starting at 0, invariantly below
`UINT64_MOD`). -/
structure Route where
  backends : List String
  counter : Nat := 0
deriving DecidableEq, Repr

/-- `route.next`: returns the backend at index `counter % len(backends)` and
the route with the counter incremented (wrapping as a uint64).  In Go,
`counter.Add(1) - 1` in uint64 arithmetic is exactly the pre-increment value,
also at wrap-around. -/
def Route.next (r : Route) : String × Route :=
  (r.backends.getD (r.counter % r.backends.length) "",
   { r with counter := (r.counter + 1) % UINT64_MOD })

/-- The sni-router handler: SNI → route.  The Go `map[string]*route` is
embedded as a partial function from SNI strings to routes. -/
structure DynamicHandler where
  routes : String → Option Route

/-- Replace the route stored under one SNI (embeds in-place mutation of the
pointed-to `route` through the map). -/
def DynamicHandler.setRoute (h : DynamicHandler) (s : String) (r : Route) :
    DynamicHandler :=
  ⟨fun t => if t = s then some r else h.routes t⟩

/-- `NewDynamicHandler` (post JSON decoding): requires a non-empty `routes`
map whose values are non-empty backend lists; each route starts with
counter 0. -/
def NewDynamicHandler (cfg : List (String × List String)) :
    Except String DynamicHandler :=
  if cfg.isEmpty then
    .error "dynamic handler requires routes config"
  else if cfg.any (fun p => p.2.isEmpty) then
    .error "empty backends"
  else
    .ok ⟨fun s => (cfg.lookup s).map (fun bs => { backends := bs })⟩

/-- `DynamicHandler.OnConnect`: Drop when the ClientHello is absent, the SNI
is empty, or no route matches; otherwise store the round-robin choice of the
matching route under `ctx["backend"]` and Continue. -/
def DynamicHandler.OnConnect (h : DynamicHandler) (ctx : Context) :
    DynamicHandler × Context × Result :=
  match ctx.hello with
  | none => (h, ctx, { action := .Drop, error := some "no ClientHello" })
  | some hello =>
    if hello.sni = "" then
      (h, ctx, { action := .Drop, error := some "no SNI" })
    else
      match h.routes hello.sni with
      | none =>
        (h, ctx, { action := .Drop, error := some ("unknown SNI: " ++ hello.sni) })
      | some r =>
        let (backend, r1) := r.next
        (h.setRoute hello.sni r1, ctx.set "backend" (.str backend),
         { action := .Continue })

/-- A fresh per-connection context carrying just a ClientHello with the given
SNI, as the proxy loop builds one for each new connection. -/
def ctxWithSNI (s : String) : Context :=
  { hello := some { sni := s } }

/-- Run a sequence of `on_connect` calls, one fresh context per element of
`snis`, threading the handler state; collect the backends assigned to the
calls whose SNI equals `s`, in call order. -/
def assignedBackends (h : DynamicHandler) (s : String) :
    List String → List String
  | [] => []
  | t :: rest =>
    let out := h.OnConnect (ctxWithSNI t)
    if t = s then
      (out.2.1.getString "backend") :: assignedBackends out.1 s rest
    else
      assignedBackends out.1 s rest

/-! ## ratelimit-global (`RateLimitGlobalHandler`) -/

/-- The global rate limiter: the configured ceiling (Go int64). -/
structure RateLimitGlobalHandler where
  maxParallelConnections : Int
deriving DecidableEq, Repr

/-- `NewRateLimitGlobalHandler` (post JSON decoding): `none` models an absent
or empty raw config (in Go the zero value 0 survives); any value `≤ 0` is
rejected. -/
def NewRateLimitGlobalHandler (cfg : Option Int) :
    Except String RateLimitGlobalHandler :=
  let m := cfg.getD 0
  if m ≤ 0 then
    .error "ratelimit-global requires max_parallel_connections > 0"
  else
    .ok { maxParallelConnections := m }

/-- `RateLimitGlobalHandler.OnConnect`: drop with an error when the session
count already reached the ceiling, otherwise continue; the context is
returned untouched (the proxy loop owns the counter). -/
def RateLimitGlobalHandler.OnConnect (h : RateLimitGlobalHandler)
    (ctx : Context) : Context × Result :=
  let currentCount := ctx.getInt64 "_session_count"
  if currentCount ≥ h.maxParallelConnections then
    (ctx, { action := .Drop,
            error := some ("max connections exceeded (" ++ toString currentCount
                           ++ "/" ++ toString h.maxParallelConnections ++ ")") })
  else
    (ctx, { action := .Continue })

/-! ## Forwarder (`ForwarderHandler`) -/

/-- Socket-level effects performed by the forwarder, recorded in order. -/
inductive SockEvent where
  | resolveAddr (backend : String)
  | dialBackend (addr : String)
  | writeBackend (d : List Nat)
  | closeBackend
  | spawnPump
deriving DecidableEq, Repr

/-- Environment oracle for one `ForwarderHandler.OnConnect` call: the
outcomes of address resolution, dialing and the initial-packet write, the
current time and the next session ID the handler counter will hand out. -/
structure ConnectEnv where
  resolve : String → Option String
  dialOk : String → Bool
  writeInitialErr : Option String := none
  now : Int := 0
  nextSessionId : Nat := 1

/-- `ForwarderHandler.OnConnect`: reads `ctx["backend"]`, resolves and dials
it, creates and attaches a session, forwards the buffered initial packet (if
non-empty; a write error closes the just-dialed socket and Drops), clears the
initial packet and spawns the backend-to-client pump. -/
def ForwarderOnConnect (ctx : Context) (env : ConnectEnv) :
    Context × List SockEvent × Result :=
  let backend := ctx.getString "backend"
  if backend = "" then
    (ctx, [], { action := .Drop, error := some "no backend address" })
  else
    match env.resolve backend with
    | none =>
      (ctx, [.resolveAddr backend],
       { action := .Drop, error := some ("resolve udp " ++ backend) })
    | some addr =>
      if env.dialOk addr then
        let session : Session :=
          { id := env.nextSessionId, clientAddr := ctx.clientAddr,
            backendAddr := addr, closed := false,
            lastActivity := env.now, createdAt := env.now }
        let ctx1 := { ctx with session := some session }
        if ctx.initialPacket.length > 0 then
          match env.writeInitialErr with
          | some e =>
            (ctx1,
             [.resolveAddr backend, .dialBackend addr,
              .writeBackend ctx.initialPacket, .closeBackend],
             { action := .Drop, error := some e })
          | none =>
            ({ ctx1 with initialPacket := [] },
             [.resolveAddr backend, .dialBackend addr,
              .writeBackend ctx.initialPacket, .spawnPump],
             { action := .Handled })
        else
          ({ ctx1 with initialPacket := [] },
           [.resolveAddr backend, .dialBackend addr, .spawnPump],
           { action := .Handled })
      else
        (ctx, [.resolveAddr backend, .dialBackend addr],
         { action := .Drop, error := some ("dial udp " ++ addr) })

/-- `ForwarderHandler.OnPacket`: Drop with an error when no session is
attached; Drop silently when the session is closed; otherwise touch
`last_activity` and, Inbound, write the datagram to the backend socket
(`writeErr` is the outcome oracle of that write), dropping on write failure
and returning Handled on success.  In the open-session Inbound branch the Go
code first evaluates `packet[0]` as an (eagerly evaluated) argument of a
debug log call, so a zero-length datagram panics with an index-out-of-range
before the write; `none` models that panic. -/
def ForwarderOnPacket (ctx : Context) (packet : List Nat) (dir : Direction)
    (now : Int) (writeErr : Option String) :
    Option (Context × List SockEvent × Result) :=
  match ctx.session with
  | none => some (ctx, [], { action := .Drop, error := some "no session" })
  | some s =>
    if s.closed then
      some (ctx, [], { action := .Drop })
    else
      let s1 := { s with lastActivity := now }
      let ctx1 := { ctx with session := some s1 }
      if dir = .Inbound then
        if packet.isEmpty then
          none
        else
          match writeErr with
          | some e =>
            some (ctx1, [.writeBackend packet],
                  { action := .Drop, error := some e })
          | none =>
            some (ctx1, [.writeBackend packet], { action := .Handled })
      else
        some (ctx1, [], { action := .Handled })

/-! ## Backend-to-client pump (`ForwarderHandler.backendToClient`) -/

/-- Observable actions of one pump task, in program order. -/
inductive PumpEvent where
  | getBuffer
  | setReadDeadline
  | readBackend
  | touch
  | notifyServerPacket (d : List Nat)
  | writeClient (d : List Nat)
  | putBuffer
deriving DecidableEq, Repr

/-- Outcome of one blocking read on the backend socket: an error (or
deadline), or a datagram together with the closed-flag value observed right
after the read and the success of the subsequent client write. -/
inductive ReadOutcome where
  | fail
  | ok (d : List Nat) (closedAfter : Bool) (writeOk : Bool)
deriving DecidableEq, Repr

/-- Scheduler input for one pump iteration: the closed-flag value observed at
the top of the loop and the outcome of the read. -/
structure IterIn where
  closedBefore : Bool
  outcome : ReadOutcome
deriving DecidableEq, Repr

/-- Trace of the pump loop under a schedule of iteration inputs.  Mirrors
`backendToClient`: exit when closed before the read; on read error return the
buffer and exit; when closed after the read return the buffer and exit;
otherwise touch, notify the proxy of the server packet (CID learning), and —
when the proxy connection is present — write to the client, exiting on write
failure. -/
def pumpTrace (hasProxyConn : Bool) : List IterIn → List PumpEvent
  | [] => []
  | it :: rest =>
    if it.closedBefore then []
    else
      [.getBuffer, .setReadDeadline, .readBackend] ++
      match it.outcome with
      | .fail => [.putBuffer]
      | .ok d closedAfter writeOk =>
        if closedAfter then [.putBuffer]
        else
          [.touch, .notifyServerPacket d] ++
          if hasProxyConn then
            if writeOk then
              [.writeClient d, .putBuffer] ++ pumpTrace hasProxyConn rest
            else
              [.writeClient d, .putBuffer]
          else
            [.putBuffer] ++ pumpTrace hasProxyConn rest

/-! ## Session close protocol -/

/-- Phase of a forwarder session with respect to publication: still inside
`OnConnect` (`connecting`), torn down by the `OnConnect` initial-write
failure path (`failedClosed`), or published with the pump spawned
(`active`). -/
inductive SessPhase where
  | connecting
  | failedClosed
  | active
deriving DecidableEq, Repr

/-- Close-protocol state of one session: its phase, the atomic closed flag,
and how many times `BackendConn.Close()` has been called. -/
structure SessState where
  phase : SessPhase
  closedFlag : Bool
  closeCount : Nat
deriving DecidableEq, Repr

/-- Events of the close protocol.  `connectFail` is the `OnConnect` path that
closes the socket directly after a failed initial write (the session is then
never published, so no `OnDisconnect` ever targets it); `publish` is
`OnConnect` returning Handled; `disconnect` is one task running
`OnDisconnect` (modelled from the spec: `Session.Close()` is a CAS on the
closed flag and only the winner closes the socket, and the proxy loop calls
`OnDisconnect` only for published sessions); `pumpExit` is the pump returning,
which never closes the socket. -/
inductive SessEvent where
  | connectFail
  | publish
  | disconnect
  | pumpExit
deriving DecidableEq, Repr

/-- One step of the close protocol; `none` when the event cannot occur in the
given state. -/
def sessStep (s : SessState) (e : SessEvent) : Option SessState :=
  match s.phase, e with
  | .connecting, .connectFail =>
    some { phase := .failedClosed, closedFlag := s.closedFlag,
           closeCount := s.closeCount + 1 }
  | .connecting, .publish =>
    some { s with phase := .active }
  | .active, .disconnect =>
    if s.closedFlag then
      some s
    else
      some { s with closedFlag := true, closeCount := s.closeCount + 1 }
  | .active, .pumpExit => some s
  | _, _ => none

/-- Run the close protocol over a list of events. -/
def sessRun : SessState → List SessEvent → Option SessState
  | s, [] => some s
  | s, e :: rest =>
    match sessStep s e with
    | none => none
    | some s1 => sessRun s1 rest

/-- Initial state of a session right after `DialUDP` succeeds. -/
def sessInit : SessState :=
  { phase := .connecting, closedFlag := false, closeCount := 0 }

/-- A session's lifetime has ended: either `OnConnect` failed after dialing,
or the closed flag has been CAS-set by an `OnDisconnect`. -/
def sessEnded (s : SessState) : Prop :=
  s.phase = .failedClosed ∨ s.closedFlag = true

instance : DecidablePred sessEnded := by
  intro s
  unfold sessEnded
  infer_instance

/-! ## Auxiliary counting and ordering devices -/

/-- Number of naturals below `K` whose residue mod `N` is `j`: how often
round-robin over `N` backends selects backend `j` within the first `K`
calls. -/
def modCount (N j K : Nat) : Nat :=
  ((List.range K).filter (fun k => k % N = j)).length

/-- Every `writeClient d` in the event list is preceded by a
`notifyServerPacket d`, where `seen` accumulates the notifications already
issued. -/
def nbw : List PumpEvent → List (List Nat) → Prop
  | [], _ => True
  | .writeClient d :: rest, seen => d ∈ seen ∧ nbw rest seen
  | .notifyServerPacket d :: rest, seen => nbw rest (d :: seen)
  | _ :: rest, seen => nbw rest seen

/-- Inductive invariant of the session close protocol: before publication the
flag is clear and nothing has been closed; after a failed initial write the
socket has been closed exactly once; once active, the close count matches the
closed flag. -/
def sessInv (s : SessState) : Prop :=
  match s.phase with
  | .connecting => s.closedFlag = false ∧ s.closeCount = 0
  | .failedClosed => s.closeCount = 1
  | .active => s.closeCount = (if s.closedFlag then 1 else 0)

/-! ## Theorems -/

/-- C9: for every packet and direction, the forwarder's OnPacket called on a
context whose Session is nil returns Drop with a non-nil error and performs
no socket operation. -/
theorem C9_onpacket_nil_session (ctx : Context) (packet : List Nat)
    (dir : Direction) (now : Int) (writeErr : Option String)
    (h : ctx.session = none) :
    ForwarderOnPacket ctx packet dir now writeErr
      = some (ctx, [], { action := .Drop, error := some "no session" }) := by
  unfold ForwarderOnPacket
  rw [h]

/-- Witness for C9 at a concrete session-less context. -/
theorem C9_onpacket_nil_session_w :
    ForwarderOnPacket {} [1, 2, 3] .Inbound 5 none
      = some ({}, [], { action := .Drop, error := some "no session" }) :=
  C9_onpacket_nil_session {} [1, 2, 3] .Inbound 5 none rfl

/-- C8: the code contradicts the claim's clear-flag half on a zero-length
datagram.  Evaluating the forwarder at the failing input — an established
session with the closed flag clear, direction Inbound, an empty packet —
OnPacket panics (the debug log call eagerly evaluates `packet[0]`) instead of
writing the datagram to the backend socket. -/
theorem C8_onpacket_empty_panic :
    ForwarderOnPacket
        { session := some { id := 2, clientAddr := "c", backendAddr := "b",
                            closed := false, lastActivity := 0, createdAt := 0 } }
        [] .Inbound 9 none
      = none := by
  rfl

/-- C10: with an empty initial packet and a non-empty, resolvable, dialable
backend, OnConnect writes no bytes to the backend socket, still creates and
attaches a session, and returns Handled. -/
theorem C10_onconnect_empty_initial (ctx : Context) (env : ConnectEnv)
    (b a : String)
    (hb : ctx.getString "backend" = b) (hbne : b ≠ "")
    (hres : env.resolve b = some a) (hdial : env.dialOk a = true)
    (hinit : ctx.initialPacket = []) :
    (ForwarderOnConnect ctx env).2.2 = { action := .Handled }
  ∧ (∀ d, SockEvent.writeBackend d ∉ (ForwarderOnConnect ctx env).2.1)
  ∧ (ForwarderOnConnect ctx env).1.session
      = some { id := env.nextSessionId, clientAddr := ctx.clientAddr,
               backendAddr := a, closed := false,
               lastActivity := env.now, createdAt := env.now } := by
  unfold ForwarderOnConnect
  rw [hb]
  simp [hbne, hres, hdial, hinit]

/-- Witness for C10 at a concrete context and environment. -/
theorem C10_onconnect_empty_initial_w :
    (ForwarderOnConnect
        { clientAddr := "1.2.3.4:5", initialPacket := [],
          bag := [("backend", .str "b:1")] }
        { resolve := fun x => if x = "b:1" then some "b.addr:1" else none,
          dialOk := fun _ => true, nextSessionId := 42, now := 7 }).2.2
      = { action := .Handled }
  ∧ (ForwarderOnConnect
        { clientAddr := "1.2.3.4:5", initialPacket := [],
          bag := [("backend", .str "b:1")] }
        { resolve := fun x => if x = "b:1" then some "b.addr:1" else none,
          dialOk := fun _ => true, nextSessionId := 42, now := 7 }).1.session
      = some { id := 42, clientAddr := "1.2.3.4:5", backendAddr := "b.addr:1",
               closed := false, lastActivity := 7, createdAt := 7 } := by
  have h := C10_onconnect_empty_initial
    { clientAddr := "1.2.3.4:5", initialPacket := [],
      bag := [("backend", .str "b:1")] }
    { resolve := fun x => if x = "b:1" then some "b.addr:1" else none,
      dialOk := fun _ => true, nextSessionId := 42, now := 7 }
    "b:1" "b.addr:1" (by decide) (by decide) (by decide) rfl rfl
  exact ⟨h.1, h.2.2⟩

/-- C6: a successfully constructed ratelimit-global handler has a positive
limit; OnConnect drops with a non-nil error exactly when
`ctx["_session_count"]` has reached the limit, continues otherwise, and never
changes the context (it owns no counter). -/
theorem C6_ratelimit_gate (cfg : Option Int) (h : RateLimitGlobalHandler)
    (ctx : Context) (hc : NewRateLimitGlobalHandler cfg = .ok h) :
    0 < h.maxParallelConnections
  ∧ (((h.OnConnect ctx).2.action = .Drop ∧ (h.OnConnect ctx).2.error ≠ none)
      ↔ h.maxParallelConnections ≤ ctx.getInt64 "_session_count")
  ∧ (ctx.getInt64 "_session_count" < h.maxParallelConnections →
      (h.OnConnect ctx).2 = { action := .Continue })
  ∧ (h.OnConnect ctx).1 = ctx := by
  unfold NewRateLimitGlobalHandler at hc
  have hpos : 0 < h.maxParallelConnections := by
    by_cases hm : cfg.getD 0 ≤ 0
    · simp [hm] at hc
    · simp [hm] at hc
      have hmx : h.maxParallelConnections = cfg.getD 0 := by
        rw [← hc]
      omega
  refine ⟨hpos, ?_, ?_, ?_⟩
  · by_cases hge : h.maxParallelConnections ≤ ctx.getInt64 "_session_count"
    · simp [RateLimitGlobalHandler.OnConnect, ge_iff_le, hge]
    · simp [RateLimitGlobalHandler.OnConnect, ge_iff_le, hge]
  · intro hlt
    have hng : ¬ h.maxParallelConnections ≤ ctx.getInt64 "_session_count" := by
      omega
    simp [RateLimitGlobalHandler.OnConnect, ge_iff_le, hng]
  · by_cases hge : h.maxParallelConnections ≤ ctx.getInt64 "_session_count" <;>
      simp [RateLimitGlobalHandler.OnConnect, ge_iff_le, hge]

/-- Witness for C6 at limit 10 with a session count of 10 (drops) and a
fresh context (continues). -/
theorem C6_ratelimit_gate_w :
    ((({ maxParallelConnections := 10 } :
        RateLimitGlobalHandler).OnConnect
          (Context.set {} "_session_count" (.int 10))).2.action = .Drop
      ∧ (({ maxParallelConnections := 10 } :
        RateLimitGlobalHandler).OnConnect
          (Context.set {} "_session_count" (.int 10))).2.error ≠ none)
  ∧ (({ maxParallelConnections := 10 } :
        RateLimitGlobalHandler).OnConnect
          (Context.set {} "_session_count" (.int 5))).2
      = { action := .Continue } := by
  constructor
  · exact (C6_ratelimit_gate (some 10) _ _ rfl).2.1.mpr (by decide)
  · exact (C6_ratelimit_gate (some 10) _ _ rfl).2.2.1 (by decide)

/-- C2 counterexample: with neither `backend` nor `backends` configured and
an environment in which HYPROXY_BACKEND is non-empty (but QUIC_RELAY_BACKEND
is unset), handler construction still fails — the code never consults
HYPROXY_BACKEND. -/
theorem C2_counterexample :
    (fun k => if k = "HYPROXY_BACKEND" then "10.0.0.1:5520" else "")
        "HYPROXY_BACKEND" ≠ ""
  ∧ NewStaticHandler {}
      (fun k => if k = "HYPROXY_BACKEND" then "10.0.0.1:5520" else "")
      = .error
          "simple-router requires backend, backends config or QUIC_RELAY_BACKEND env" := by
  constructor
  · decide
  · rfl

/-- C2 (amended): if the simple-router is configured with neither `backend`
nor `backends`, handler construction uses the environment variable
QUIC_RELAY_BACKEND as the backend list; only if that is also empty does
construction fail with an error. -/
theorem C2_env_fallback (cfg : StaticConfig) (env : String → String)
    (h1 : cfg.backends = []) (h2 : cfg.backend = "") :
    (env "QUIC_RELAY_BACKEND" ≠ "" →
      NewStaticHandler cfg env = .ok { backends := [env "QUIC_RELAY_BACKEND"] })
  ∧ (env "QUIC_RELAY_BACKEND" = "" →
      NewStaticHandler cfg env
        = .error
            "simple-router requires backend, backends config or QUIC_RELAY_BACKEND env") := by
  constructor
  · intro henv
    simp [NewStaticHandler, h1, h2, henv]
  · intro henv
    simp [NewStaticHandler, h1, h2, henv]

/-- Witness for the amended C2: a concrete empty config with
QUIC_RELAY_BACKEND set. -/
theorem C2_env_fallback_w :
    NewStaticHandler {}
        (fun k => if k = "QUIC_RELAY_BACKEND" then "9.9.9.9:1" else "")
      = .ok { backends := ["9.9.9.9:1"] } := by
  have h := C2_env_fallback {}
    (fun k => if k = "QUIC_RELAY_BACKEND" then "9.9.9.9:1" else "") rfl rfl
  simpa using h.1 (by decide)

/-- C3 counterexample: a configuration supplying both `backend` and
`backends` non-empty does not fail — construction succeeds and uses the
`backends` list. -/
theorem C3_counterexample :
    NewStaticHandler
        { backend := "10.0.0.1:1", backends := ["10.0.0.2:2", "10.0.0.3:3"] }
        (fun _ => "")
      = .ok { backends := ["10.0.0.2:2", "10.0.0.3:3"] } := by
  rfl

/-- C3 (amended): the keys are not mutually exclusive; whenever `backends` is
non-empty, construction succeeds with exactly that list and `backend` is
ignored. -/
theorem C3_backends_precedence (cfg : StaticConfig) (env : String → String)
    (h : cfg.backends ≠ []) :
    NewStaticHandler cfg env = .ok { backends := cfg.backends } := by
  have hlen : 0 < cfg.backends.length := List.length_pos.mpr h
  simp [NewStaticHandler, hlen]

/-- Witness for the amended C3 at a concrete config carrying both keys. -/
theorem C3_backends_precedence_w :
    NewStaticHandler { backend := "solo:1", backends := ["a:1", "b:2"] }
        (fun _ => "")
      = .ok { backends := ["a:1", "b:2"] } :=
  C3_backends_precedence
    { backend := "solo:1", backends := ["a:1", "b:2"] } (fun _ => "")
    (by decide)

/-- C5: the sni-router's on_connect drops (with the documented reasons, the
unknown-SNI one being `unknown SNI: <sni>`) when the ClientHello is absent,
the SNI is empty, or no route matches — leaving the context, in particular
its session slot, untouched — and otherwise continues with `ctx["backend"]`
set to a member of the matching route's backend list, never itself attaching
a session. -/
theorem C5_sni_router_cases (h : DynamicHandler) (ctx : Context) :
    (ctx.hello = none →
      h.OnConnect ctx = (h, ctx, { action := .Drop, error := some "no ClientHello" }))
  ∧ (∀ he, ctx.hello = some he → he.sni = "" →
      h.OnConnect ctx = (h, ctx, { action := .Drop, error := some "no SNI" }))
  ∧ (∀ he, ctx.hello = some he → he.sni ≠ "" → h.routes he.sni = none →
      h.OnConnect ctx
        = (h, ctx, { action := .Drop, error := some ("unknown SNI: " ++ he.sni) }))
  ∧ (∀ he r, ctx.hello = some he → he.sni ≠ "" → h.routes he.sni = some r →
      r.backends ≠ [] →
      (h.OnConnect ctx).2.2 = { action := .Continue }
      ∧ (h.OnConnect ctx).2.1.getString "backend" ∈ r.backends
      ∧ (h.OnConnect ctx).2.1.session = ctx.session) := by
  refine ⟨?_, ?_, ?_, ?_⟩
  · intro hh
    unfold DynamicHandler.OnConnect
    rw [hh]
  · intro he hh hsni
    unfold DynamicHandler.OnConnect
    rw [hh]
    simp [hsni]
  · intro he hh hsni hroute
    unfold DynamicHandler.OnConnect
    rw [hh]
    simp [hsni, hroute]
  · intro he r hh hsni hroute hne
    unfold DynamicHandler.OnConnect
    rw [hh]
    simp only [hsni, if_neg hsni, hroute]
    have hlen : 0 < r.backends.length := List.length_pos.mpr hne
    have hidx : r.counter % r.backends.length < r.backends.length :=
      Nat.mod_lt _ hlen
    refine ⟨rfl, ?_, ?_⟩
    · rw [Route.next]
      simp only [Context.getString_set]
      rw [List.getD_eq_getElem _ _ hidx]
      exact List.getElem_mem hidx
    · rw [Route.next]
      exact Context.session_set _ _ _

/-- Witness for C5: a concrete two-route handler with a matching SNI
(continue, backend in the route list) and an unknown SNI (drop with the
documented reason). -/
theorem C5_sni_router_cases_w :
    ((DynamicHandler.mk
        (fun t => if t = "play.example.com"
                  then some { backends := ["10.0.0.1:5520", "10.0.0.2:5520"] }
                  else none)).OnConnect
      (ctxWithSNI "play.example.com")).2.1.getString "backend"
        ∈ ["10.0.0.1:5520", "10.0.0.2:5520"]
  ∧ ((DynamicHandler.mk
        (fun t => if t = "play.example.com"
                  then some { backends := ["10.0.0.1:5520", "10.0.0.2:5520"] }
                  else none)).OnConnect (ctxWithSNI "other.example.com")).2.2
      = { action := .Drop, error := some "unknown SNI: other.example.com" } := by
  constructor
  · exact (((C5_sni_router_cases _ _).2.2.2
      { sni := "play.example.com" } { backends := ["10.0.0.1:5520", "10.0.0.2:5520"] }
      rfl (by decide) (by decide) (by decide)).2.1)
  · have h := (C5_sni_router_cases
      (DynamicHandler.mk
        (fun t => if t = "play.example.com"
                  then some { backends := ["10.0.0.1:5520", "10.0.0.2:5520"] }
                  else none))
      (ctxWithSNI "other.example.com")).2.2.1
      { sni := "other.example.com" } rfl (by decide) (by decide)
    rw [h]
    rfl

theorem sessInv_init : sessInv sessInit := by
  constructor <;> rfl

theorem sessStep_inv {s s1 : SessState} {e : SessEvent}
    (h : sessStep s e = some s1) (hs : sessInv s) : sessInv s1 := by
  rcases s with ⟨ph, f, c⟩
  cases ph <;> cases e <;>
    simp only [sessStep, Option.some.injEq, reduceCtorEq] at h
  · rw [← h]
    unfold sessInv at hs ⊢
    simp_all
  · rw [← h]
    unfold sessInv at hs ⊢
    simp_all
  · cases f
    · simp only [Bool.false_eq_true, if_false, Option.some.injEq] at h
      rw [← h]
      unfold sessInv at hs ⊢
      simp_all
    · simp only [if_true, Option.some.injEq] at h
      rw [← h]
      exact hs
  · rw [← h]
    exact hs

theorem sessRun_inv :
    ∀ (evs : List SessEvent) (s0 s : SessState),
      sessInv s0 → sessRun s0 evs = some s → sessInv s := by
  intro evs
  induction evs with
  | nil =>
    intro s0 s h0 hrun
    simp only [sessRun, Option.some.injEq] at hrun
    rw [← hrun]
    exact h0
  | cons e rest ih =>
    intro s0 s h0 hrun
    unfold sessRun at hrun
    cases hstep : sessStep s0 e with
    | none => rw [hstep] at hrun; exact absurd hrun (by simp)
    | some s1 =>
      rw [hstep] at hrun
      exact ih s1 s (sessStep_inv hstep h0) hrun

/-- C1: along every admissible interleaving of close-protocol events for a
session created by the forwarder (OnConnect failure after dialing,
OnDisconnect from any number of tasks, pump exits), the backend socket is
closed at most once, and it has been closed exactly once precisely when the
session has ended (failed OnConnect or CAS-set closed flag) — never zero
times for an ended session, never more than once. -/
theorem C1_close_once (evs : List SessEvent) (s : SessState)
    (h : sessRun sessInit evs = some s) :
    s.closeCount ≤ 1 ∧ (s.closeCount = 1 ↔ sessEnded s) := by
  have hinv := sessRun_inv evs sessInit s sessInv_init h
  rcases s with ⟨ph, f, c⟩
  cases ph
  · rcases hinv with ⟨hf, hc⟩
    subst hf
    subst hc
    simp [sessEnded]
  · unfold sessInv at hinv
    simp only at hinv
    subst hinv
    simp [sessEnded]
  · unfold sessInv at hinv
    simp only at hinv
    cases f
    · simp only [Bool.false_eq_true, if_false] at hinv
      subst hinv
      simp [sessEnded]
    · simp only [if_true] at hinv
      subst hinv
      simp [sessEnded]

/-- Witness for C1: publish, two racing disconnects and a pump exit yield
exactly one close. -/
theorem C1_close_once_w :
    sessRun sessInit [.publish, .disconnect, .disconnect, .pumpExit]
      = some { phase := .active, closedFlag := true, closeCount := 1 }
  ∧ ({ phase := .active, closedFlag := true, closeCount := 1 } :
        SessState).closeCount ≤ 1
  ∧ (({ phase := .active, closedFlag := true, closeCount := 1 } :
        SessState).closeCount = 1
      ↔ sessEnded { phase := .active, closedFlag := true, closeCount := 1 }) :=
  ⟨by decide,
   (C1_close_once [.publish, .disconnect, .disconnect, .pumpExit] _ (by decide)).1,
   (C1_close_once [.publish, .disconnect, .disconnect, .pumpExit] _ (by decide)).2⟩

theorem pumpTrace_nbw (hpc : Bool) :
    ∀ (ins : List IterIn) (seen : List (List Nat)),
      nbw (pumpTrace hpc ins) seen := by
  intro ins
  induction ins with
  | nil =>
    intro seen
    simp [pumpTrace, nbw]
  | cons it rest ih =>
    intro seen
    rcases it with ⟨cb, outc⟩
    cases cb
    · cases outc with
      | fail => simp [pumpTrace, nbw]
      | ok d ca wok =>
        cases ca
        · cases hpc
          · simpa [pumpTrace, nbw] using ih (d :: seen)
          · cases wok
            · simp [pumpTrace, nbw]
            · simpa [pumpTrace, nbw] using ih (d :: seen)
        · simp [pumpTrace, nbw]
    · simp [pumpTrace, nbw]

theorem nbw_before :
    ∀ (l : List PumpEvent) (seen : List (List Nat)), nbw l seen →
      ∀ i d, l.get? i = some (.writeClient d) →
        (∃ j, j < i ∧ l.get? j = some (.notifyServerPacket d)) ∨ d ∈ seen := by
  intro l
  induction l with
  | nil =>
    intro seen _ i d hget
    simp at hget
  | cons e rest ih =>
    intro seen hn i d hget
    cases i with
    | zero =>
      simp only [List.get?_cons_zero, Option.some.injEq] at hget
      subst hget
      exact Or.inr hn.1
    | succ n =>
      simp only [List.get?_cons_succ] at hget
      cases e with
      | writeClient d1 =>
        rcases ih seen hn.2 n d hget with ⟨j, hj, hmem⟩ | hmem
        · exact Or.inl ⟨j + 1, by omega, by simpa using hmem⟩
        · exact Or.inr hmem
      | notifyServerPacket d1 =>
        rcases ih (d1 :: seen) hn n d hget with ⟨j, hj, hmem⟩ | hmem
        · exact Or.inl ⟨j + 1, by omega, by simpa using hmem⟩
        · rcases List.mem_cons.mp hmem with heq | hmem1
          · subst heq
            exact Or.inl ⟨0, by omega, by simp⟩
          · exact Or.inr hmem1
      | getBuffer =>
        rcases ih seen hn n d hget with ⟨j, hj, hmem⟩ | hmem
        · exact Or.inl ⟨j + 1, by omega, by simpa using hmem⟩
        · exact Or.inr hmem
      | setReadDeadline =>
        rcases ih seen hn n d hget with ⟨j, hj, hmem⟩ | hmem
        · exact Or.inl ⟨j + 1, by omega, by simpa using hmem⟩
        · exact Or.inr hmem
      | readBackend =>
        rcases ih seen hn n d hget with ⟨j, hj, hmem⟩ | hmem
        · exact Or.inl ⟨j + 1, by omega, by simpa using hmem⟩
        · exact Or.inr hmem
      | touch =>
        rcases ih seen hn n d hget with ⟨j, hj, hmem⟩ | hmem
        · exact Or.inl ⟨j + 1, by omega, by simpa using hmem⟩
        · exact Or.inr hmem
      | putBuffer =>
        rcases ih seen hn n d hget with ⟨j, hj, hmem⟩ | hmem
        · exact Or.inl ⟨j + 1, by omega, by simpa using hmem⟩
        · exact Or.inr hmem

/-- C7: in the backend-to-client pump, every datagram written to the client
via the proxy's listen socket was announced to the CID-learning index
earlier in the trace: any `writeClient d` at position `i` has a
`notifyServerPacket d` at some position `j < i`. -/
theorem C7_notify_before_write (hpc : Bool) (ins : List IterIn) (i : Nat)
    (d : List Nat)
    (hw : (pumpTrace hpc ins).get? i = some (.writeClient d)) :
    ∃ j, j < i ∧ (pumpTrace hpc ins).get? j
      = some (.notifyServerPacket d) := by
  rcases nbw_before (pumpTrace hpc ins) [] (pumpTrace_nbw hpc ins []) i d hw
    with h | h
  · exact h
  · simp at h

/-- Witness for C7: a single successful forward has its write at position 5
and the notification strictly before it. -/
theorem C7_notify_before_write_w :
    (pumpTrace true
        [IterIn.mk false (.ok [0x40, 0x01] false true)]).get? 5
      = some (.writeClient [0x40, 0x01])
  ∧ ∃ j, j < 5 ∧ (pumpTrace true
        [IterIn.mk false (.ok [0x40, 0x01] false true)]).get? j
      = some (.notifyServerPacket [0x40, 0x01]) :=
  ⟨by decide,
   C7_notify_before_write true
     [IterIn.mk false (.ok [0x40, 0x01] false true)]
     5 [0x40, 0x01] (by decide)⟩

theorem modCount_succ (N j K : Nat) :
    modCount N j (K + 1) = modCount N j K + (if K % N = j then 1 else 0) := by
  unfold modCount
  rw [List.range_succ K, List.filter_append, List.length_append]
  by_cases h : K % N = j <;> simp [h]

theorem rrStep_nowrap (q r j : Nat) :
    q + (if j < r then 1 else 0) + (if r = j then 1 else 0)
      = q + (if j < r + 1 then 1 else 0) := by
  split_ifs <;> omega

theorem rrStep_wrap (q r j : Nat) (hjr : j ≤ r) :
    q + (if j < r then 1 else 0) + (if r = j then 1 else 0) = q + 1 := by
  split_ifs <;> omega

theorem modCount_formula (N j : Nat) (hN : 0 < N) (hj : j < N) (K : Nat) :
    modCount N j K = K / N + (if j < K % N then 1 else 0) := by
  induction K with
  | zero => simp [modCount]
  | succ K ih =>
    have hq := Nat.div_add_mod K N
    have hrlt : K % N < N := Nat.mod_lt _ hN
    by_cases hcase : K % N + 1 < N
    · have hK1 : K + 1 = N * (K / N) + (K % N + 1) := by
        conv_lhs => rw [← hq]
        rw [Nat.add_assoc]
      have hmod : (K + 1) % N = K % N + 1 := by
        rw [hK1, Nat.mul_add_mod, Nat.mod_eq_of_lt hcase]
      have hdiv : (K + 1) / N = K / N := by
        rw [hK1, Nat.mul_add_div hN, Nat.div_eq_of_lt hcase, Nat.add_zero]
      rw [modCount_succ, ih, hmod, hdiv]
      exact rrStep_nowrap _ _ _
    · have hreq : K % N + 1 = N :=
        Nat.le_antisymm (Nat.succ_le_of_lt hrlt) (Nat.le_of_not_lt hcase)
      have hK1 : K + 1 = N * (K / N) + N := by
        conv_lhs => rw [← hq]
        rw [Nat.add_assoc, hreq]
      have hmod : (K + 1) % N = 0 := by
        rw [hK1, ← Nat.mul_succ, Nat.mul_mod_right]
      have hdiv : (K + 1) / N = K / N + 1 := by
        rw [hK1, ← Nat.mul_succ, Nat.mul_div_cancel_left _ hN]
      rw [modCount_succ, ih, hmod, hdiv]
      rw [if_neg (Nat.not_lt_zero j), Nat.add_zero]
      exact rrStep_wrap _ _ _ (by omega)

theorem modCount_bounds (N j K : Nat) (hN : 0 < N) (hj : j < N) :
    K / N ≤ modCount N j K ∧ modCount N j K ≤ K / N + 1 := by
  rw [modCount_formula N j hN hj K]
  split_ifs <;> omega

theorem onConnect_routes_ne (h : DynamicHandler) (t s : String) (hts : t ≠ s) :
    ((h.OnConnect (ctxWithSNI t)).1).routes s = h.routes s := by
  have hst : s ≠ t := Ne.symm hts
  unfold DynamicHandler.OnConnect ctxWithSNI
  by_cases ht : t = ""
  · simp [ht]
  · cases hr : h.routes t with
    | none => simp [ht, hr]
    | some r => simp [ht, hr, DynamicHandler.setRoute, Route.next, hst]

theorem onConnect_routes_self (h : DynamicHandler) (s : String) (r : Route)
    (hs : s ≠ "") (hr : h.routes s = some r) :
    ((h.OnConnect (ctxWithSNI s)).1).routes s
        = some { backends := r.backends,
                 counter := (r.counter + 1) % UINT64_MOD }
  ∧ ((h.OnConnect (ctxWithSNI s)).2.1).getString "backend"
        = r.backends.getD (r.counter % r.backends.length) "" := by
  unfold DynamicHandler.OnConnect ctxWithSNI
  simp [hs, hr, DynamicHandler.setRoute, Route.next, Context.getString_set]

theorem assignedBackends_spec (s : String) (bs : List String)
    (hs : s ≠ "") (hbs : bs ≠ []) :
    ∀ (snis : List String) (h : DynamicHandler) (c : Nat),
      h.routes s = some { backends := bs, counter := c } →
      c + snis.count s < UINT64_MOD →
      assignedBackends h s snis
        = (List.range (snis.count s)).map
            (fun k => bs.getD ((c + k) % bs.length) "") := by
  intro snis
  induction snis with
  | nil =>
    intro h c hr hc
    simp [assignedBackends]
  | cons t rest ih =>
    intro h c hr hc
    by_cases hts : t = s
    · subst hts
      have hcount : (t :: rest).count t = rest.count t + 1 :=
        List.count_cons_self t rest
      rw [hcount] at hc
      obtain ⟨hadv, hbk⟩ :=
        onConnect_routes_self h t { backends := bs, counter := c } hs hr
      dsimp only at hadv hbk
      have hlt1 : c + 1 < UINT64_MOD := by omega
      have hc1 : (c + 1) % UINT64_MOD = c + 1 := Nat.mod_eq_of_lt hlt1
      have hroutes1 : ((h.OnConnect (ctxWithSNI t)).1).routes t
          = some { backends := bs, counter := c + 1 } := by
        rw [hadv, hc1]
      unfold assignedBackends
      simp only [if_pos rfl, if_true]
      rw [hbk, ih _ (c + 1) hroutes1 (by omega), hcount,
          List.range_succ_eq_map, List.map_cons, List.map_map]
      congr 1
      apply List.map_congr_left
      intro k _
      have hk : c + 1 + k = c + (k + 1) := by omega
      simp [Function.comp, hk]
    · have hst : s ≠ t := Ne.symm hts
      have hpres := onConnect_routes_ne h t s hts
      have hcount : (t :: rest).count s = rest.count s :=
        List.count_cons_of_ne hst rest
      rw [hcount] at hc
      unfold assignedBackends
      simp only [if_neg hts]
      rw [hcount]
      exact ih _ c (by rw [hpres]; exact hr) hc

/-- C4: for an sni-router route `s ↦ bs` with fresh counter, running any
interleaved sequence of on_connect calls assigns, to the k-th call carrying
SNI `s` (counting from 1), the backend `bs[(k-1) mod N]` — calls carrying
other SNIs leave the route's counter alone — and over the K calls carrying
`s`, backend index `j` is selected between K/N and K/N + 1 times. -/
theorem C4_round_robin (h : DynamicHandler) (s : String) (bs : List String)
    (snis : List String) (hs : s ≠ "")
    (hr : h.routes s = some { backends := bs })
    (hbs : bs ≠ []) (hK : snis.count s < UINT64_MOD) :
    assignedBackends h s snis
      = (List.range (snis.count s)).map (fun k => bs.getD (k % bs.length) "")
  ∧ ∀ j, j < bs.length →
      snis.count s / bs.length ≤ modCount bs.length j (snis.count s)
      ∧ modCount bs.length j (snis.count s)
          ≤ snis.count s / bs.length + 1 := by
  constructor
  · have hspec := assignedBackends_spec s bs hs hbs snis h 0 hr (by omega)
    simpa using hspec
  · intro j hj
    exact modCount_bounds bs.length j (snis.count s)
      (List.length_pos.mpr hbs) hj

/-- Witness for C4: route `a.com ↦ [b1, b2]`, four connects of which three
carry `a.com`; the assignments are b1, b2, b1 and the selection counts are
2 and 1 (within 3/2 ± 1). -/
theorem C4_round_robin_w :
    assignedBackends
        (DynamicHandler.mk (fun t => if t = "a.com"
          then some { backends := ["b1:443", "b2:443"] } else none))
        "a.com" ["a.com", "x.com", "a.com", "a.com"]
      = ["b1:443", "b2:443", "b1:443"]
  ∧ ["a.com", "x.com", "a.com", "a.com"].count "a.com" / 2
      ≤ modCount 2 0 (["a.com", "x.com", "a.com", "a.com"].count "a.com")
  ∧ modCount 2 0 (["a.com", "x.com", "a.com", "a.com"].count "a.com")
      ≤ ["a.com", "x.com", "a.com", "a.com"].count "a.com" / 2 + 1 := by
  have h := C4_round_robin
    (DynamicHandler.mk (fun t => if t = "a.com"
       then some { backends := ["b1:443", "b2:443"] } else none))
    "a.com" ["b1:443", "b2:443"] ["a.com", "x.com", "a.com", "a.com"]
    (by decide) rfl (by decide) (by decide)
  refine ⟨?_, (h.2 0 (by decide)).1, (h.2 0 (by decide)).2⟩
  rw [h.1]
  decide

end QuicRelay
